import Mathlib

/-!
Verification of `src/service/postgres/backup.go` (the `Backup` pipeline of
backman's postgres service).

The Go function is embedded shallowly: all external effects (stdout pipe
creation, process start, process wait, the context-deadline check, the
`io.Copy` inside the chain goroutine, the S3 upload) are inputs collected in a
`RunEnv`; `Backup` then deterministically selects the return site the Go code
reaches and records the observable events of that path (mutex lock/unlock,
`os.Setenv` calls, process start, gzip-header initialization, the copy result
that the code discards, the upload call, the stderr log line, the chain join
point, the deferred cancel/close/unlock) as a trace.  The package-global
`pgMutex` is additionally modelled by a small interleaving transition system
over `n` concurrent calls to prove mutual exclusion.
-/

namespace Backman

/-- A service binding as `Backup` uses it: the namespace label
(`binding.Label`), the instance name (`binding.Name`) and the credential map
behind `binding.CredentialString`. -/
structure Binding where
  label : String
  name : String
  credentials : List (String × String)

/-- Model of `binding.CredentialString(key)` (go-cfenv): the credential value
and a success flag.  A missing key yields the empty string and `false`; the
Go code at lines 28-32 discards the flag (`host, _ := ...`). -/
def credentialString (b : Binding) (key : String) : String × Bool :=
  match b.credentials.lookup key with
  | some v => (v, true)
  | none => ("", false)

/-- The dump argv built at lines 40-49: `pg_dump <database> -C` when the
database name is non-empty, `pg_dumpall` otherwise; in both cases `-c` and
`--no-password` are appended. -/
def dumpCommand (database : String) : List String :=
  (if database.length > 0 then ["pg_dump", database, "-C"] else ["pg_dumpall"])
    ++ ["-c", "--no-password"]

/-- `fmt.Sprintf("%s/%s/%s", binding.Label, binding.Name, filename)`
(line 89). -/
def objectPath (b : Binding) (filename : String) : String :=
  b.label ++ "/" ++ b.name ++ "/" ++ filename

/-- Path format in the words of the spec: the namespace, the instance name and
the logical filename joined by the `/` separator.  Compared against
`objectPath` for refinement. -/
def specObjectPath (ns instanceName filename : String) : String :=
  String.intercalate "/" [ns, instanceName, filename]

/-- `strings.TrimRight(s, "\r\n")` (line 103): removes trailing characters
that are carriage returns or line feeds. -/
def trimRightLineEnds (s : String) : String :=
  ⟨(s.data.reverse.dropWhile (fun c => c = '\r' || c = '\n')).reverse⟩

/-- The metadata `Backup` sets on the gzip writer (lines 81-82): `gw.Name`
and `gw.ModTime`; the timestamp is abstracted as a clock reading. -/
structure GzipHeader where
  name : String
  modTime : Nat
deriving DecidableEq

/-- Outcomes of one run's external effects: `cmd.StdoutPipe()`, `cmd.Start()`,
`cmd.Wait()` (with `none` meaning exit success), whether `ctx.Err()` equals
`context.DeadlineExceeded` at the post-wait check, the captured stderr buffer
contents, the `io.Copy` outcome inside the chain, the
`s3.UploadWithContext` outcome, and the clock value when compression starts
(`time.Now()` at line 82). -/
structure RunEnv where
  pipeErr : Option String
  startErr : Option String
  waitErr : Option String
  ctxDeadlineExceeded : Bool
  stderr : String
  copyErr : Option String
  uploadErr : Option String
  compressStart : Nat
deriving DecidableEq

/-- Observable events of one run, in program order. -/
inductive Event where
  | lock
  | setenv (key value : String)
  | startProc (argv : List String)
  | gzipInit (hdr : GzipHeader)
  | copyDone (copyErr : Option String)
  | uploadCall (path : String)
  | logStderr (line : String)
  | waitChain
  | cancelUpload
  | closePipe
  | unlock
deriving DecidableEq

/-- The four `os.Setenv` calls at lines 34-37, in program order. -/
def setenvEvents (b : Binding) : List Event :=
  [ Event.setenv "PGUSER" (credentialString b "username").1
  , Event.setenv "PGPASSWORD" (credentialString b "password").1
  , Event.setenv "PGHOST" (credentialString b "host").1
  , Event.setenv "PGPORT" (credentialString b "port").1 ]

/-- Events of the compression-and-upload chain goroutine (lines 75-94):
gzip-header initialization, the `io.Copy` whose result is assigned to blanks,
and the upload call with the computed object path. -/
def chainEvents (env : RunEnv) (b : Binding) (filename : String) : List Event :=
  [ Event.gzipInit ⟨filename, env.compressStart⟩
  , Event.copyDone env.copyErr
  , Event.uploadCall (objectPath b filename) ]

/-- The five return sites of `Backup`, one constructor each: the
`StdoutPipe` error return (line 58), the `Start` error return (line 67), the
timeout return (line 99), the dump-failure return (line 104), and the final
`return err` (line 108) whose value is the upload outcome. -/
inductive BackupResult where
  | pipeError (msg : String)
  | startError (msg : String)
  | timeoutError (msg : String)
  | dumpError (msg : String)
  | chainResult (uploadErr : Option String)
deriving DecidableEq

/-- Return-site selection and the trace after the initial lock/setenv prefix.
Deferred calls run in reverse registration order: `uploadCancel`, then
`outPipe.Close()`, then `pgMutex.Unlock()`. -/
def backupTail (env : RunEnv) (b : Binding) (filename : String) :
    BackupResult × List Event :=
  match env.pipeErr with
  | some e => (BackupResult.pipeError e, [Event.unlock])
  | none =>
    match env.startErr with
    | some e => (BackupResult.startError e, [Event.closePipe, Event.unlock])
    | none =>
      let launched :=
        Event.startProc (dumpCommand (credentialString b "database").1)
          :: chainEvents env b filename
      match env.waitErr with
      | some w =>
        if env.ctxDeadlineExceeded then
          (BackupResult.timeoutError "postgres dump: timeout: context deadline exceeded",
            launched ++ [Event.cancelUpload, Event.closePipe, Event.unlock])
        else
          (BackupResult.dumpError ("postgres dump: " ++ w),
            launched ++ [Event.logStderr (trimRightLineEnds env.stderr),
              Event.cancelUpload, Event.closePipe, Event.unlock])
      | none =>
        (BackupResult.chainResult env.uploadErr,
          launched ++ [Event.waitChain, Event.cancelUpload, Event.closePipe,
            Event.unlock])

/-- Shallow embedding of `Backup` (src/service/postgres/backup.go, lines
22-109): given the outcomes of the run's external effects, the binding and
the logical filename, yields the value of the return site the Go code
reaches and the trace of observable events on that path.  Every path begins
with `pgMutex.Lock()` and the four `os.Setenv` calls. -/
def Backup (env : RunEnv) (b : Binding) (filename : String) :
    BackupResult × List Event :=
  ((backupTail env b filename).1,
    (Event.lock :: setenvEvents b) ++ (backupTail env b filename).2)

/-- Effect of one trace event on the host process's environment: `os.Setenv`
overwrites the variable process-wide; no event restores it. -/
def applyEvent (g : String → Option String) : Event → (String → Option String)
  | Event.setenv k v => fun x => if x = k then some v else g x
  | _ => g

/-- The host process environment after one `Backup` run that started from
environment `g`. -/
def hostEnvAfter (g : String → Option String) (env : RunEnv) (b : Binding)
    (filename : String) : String → Option String :=
  (Backup env b filename).2.foldl applyEvent g

/-- `s` contains `pattern` as a contiguous substring. -/
def strContains (s pattern : String) : Prop :=
  pattern.data <:+: s.data

instance (s pattern : String) : Decidable (strContains s pattern) :=
  inferInstanceAs (Decidable (pattern.data <:+: s.data))

/-- Phase of one concurrent `Backup` call: `active` spans the whole body
between `pgMutex.Lock()` and the deferred `pgMutex.Unlock()`. -/
inductive Phase where
  | idle
  | active
  | done
deriving DecidableEq

/-- Global state of `n` concurrent `Backup` calls sharing the package-global
`pgMutex` (line 20): the current mutex holder and each call's phase. -/
structure LockState (n : Nat) where
  holder : Option (Fin n)
  phase : Fin n → Phase

/-- All calls pending, mutex free. -/
def initLockState (n : Nat) : LockState n :=
  ⟨none, fun _ => Phase.idle⟩

/-- Interleaving semantics of `pgMutex`: a call acquires only when no call
holds the mutex (`pgMutex.Lock()` blocks otherwise), and only the holder
releases, at run end (the deferred `pgMutex.Unlock()`). -/
inductive LockStep {n : Nat} : LockState n → LockState n → Prop where
  | acquire (i : Fin n) (s : LockState n) (hfree : s.holder = none)
      (hidle : s.phase i = Phase.idle) :
      LockStep s ⟨some i, Function.update s.phase i Phase.active⟩
  | release (i : Fin n) (s : LockState n) (hhold : s.holder = some i)
      (hact : s.phase i = Phase.active) :
      LockStep s ⟨none, Function.update s.phase i Phase.done⟩

/-- States reachable from the initial state by interleaved acquire/release
steps. -/
inductive ReachableLock (n : Nat) : LockState n → Prop where
  | init : ReachableLock n (initLockState n)
  | step {s t : LockState n} : ReachableLock n s → LockStep s t →
      ReachableLock n t

/-- In every reachable state, any call inside its mutex-protected body is the
mutex holder. -/
lemma active_implies_holder {n : Nat} {s : LockState n}
    (h : ReachableLock n s) :
    ∀ i : Fin n, s.phase i = Phase.active → s.holder = some i := by
  induction h with
  | init =>
    intro i hi
    simp [initLockState] at hi
  | step hr hst ih =>
    cases hst with
    | acquire j s hfree hidle =>
      intro i hi
      dsimp only at hi ⊢
      by_cases hij : i = j
      · subst hij; rfl
      · exfalso
        rw [Function.update_noteq hij] at hi
        have := ih i hi
        rw [hfree] at this
        exact Option.noConfusion this
    | release j s hhold hact =>
      intro i hi
      dsimp only at hi ⊢
      by_cases hij : i = j
      · subst hij
        rw [Function.update_same] at hi
        exact absurd hi (by simp)
      · exfalso
        rw [Function.update_noteq hij] at hi
        have := ih i hi
        rw [hhold] at this
        exact hij (Option.some.inj this).symm |>.elim

/-- Mutual exclusion: two calls simultaneously inside the mutex-protected
body are the same call. -/
lemma lock_mutual_exclusion {n : Nat} {s : LockState n}
    (h : ReachableLock n s) {i j : Fin n}
    (hi : s.phase i = Phase.active) (hj : s.phase j = Phase.active) :
    i = j := by
  have h1 := active_implies_holder h i hi
  have h2 := active_implies_holder h j hj
  rw [h1] at h2
  exact Option.some.inj h2

/-- A concrete binding used for witnesses and counterexamples. -/
def sampleBinding : Binding :=
  ⟨"svc", "instance1",
    [("host", "db.example"), ("port", "5432"), ("database", "orders"),
      ("username", "alice"), ("password", "secret")]⟩

/-- Events other than `Event.setenv` leave the host environment unchanged. -/
lemma applyEvent_of_ne_setenv (g : String → Option String) (e : Event)
    (h : ∀ k v, e ≠ Event.setenv k v) : applyEvent g e = g := by
  cases e
  case setenv k v => exact absurd rfl (h k v)
  all_goals rfl

/-- Folding `applyEvent` over a list with no `setenv` event is the
identity. -/
lemma foldl_applyEvent_of_no_setenv (l : List Event) :
    ∀ g : String → Option String, (∀ k v, Event.setenv k v ∉ l) →
      l.foldl applyEvent g = g := by
  induction l with
  | nil => intro g _; rfl
  | cons e t ih =>
    intro g h
    rw [List.foldl_cons,
      applyEvent_of_ne_setenv g e (fun k v he => h k v (by simp [he]))]
    exact ih g (fun k v hm => h k v (List.mem_cons_of_mem e hm))

/-- All `os.Setenv` calls happen in the prefix of the trace; none occurs in
the tail. -/
lemma setenv_not_mem_backupTail (env : RunEnv) (b : Binding) (f k v : String) :
    Event.setenv k v ∉ (backupTail env b f).2 := by
  obtain ⟨pe, se, we, dl, st, ce, ue, cs⟩ := env
  cases pe <;> cases se <;> cases we <;> cases dl <;>
    simp [backupTail, chainEvents]

/-- Claim C1, counterexample.  Dump exits with status 1, the deadline has not
been exceeded, and stderr holds "connection refused\n": `Backup` returns the
dump-failed error "postgres dump: exit status 1", and the trimmed stderr text
"connection refused" does not occur in that returned error.  The claim that
the returned error contains the captured stderr text is therefore false: the
code only logs the trimmed stderr and wraps the process's exit error
instead. -/
theorem c1_counterexample :
    (Backup ⟨none, none, some "exit status 1", false, "connection refused\n",
        none, none, 0⟩ sampleBinding "backup.sql.gz").1
      = BackupResult.dumpError "postgres dump: exit status 1" ∧
    trimRightLineEnds "connection refused\n" = "connection refused" ∧
    ¬ strContains "postgres dump: exit status 1" "connection refused" :=
  ⟨rfl, rfl, by decide⟩

/-- Claim C1, amended.  For every run in which the dump process exits with a
non-zero status and the caller's context has not exceeded its deadline at that
moment, `Backup` returns an error classified `DumpFailed` that carries the
process's exit error ("postgres dump: " followed by the exit error); the
captured standard-error text trimmed of trailing \r and \n is logged, not
included in the returned error. -/
theorem c1_amended (b : Binding) (f w st : String) (ce ue : Option String)
    (cs : Nat) :
    (Backup ⟨none, none, some w, false, st, ce, ue, cs⟩ b f).1
      = BackupResult.dumpError ("postgres dump: " ++ w) ∧
    Event.logStderr (trimRightLineEnds st)
      ∈ (Backup ⟨none, none, some w, false, st, ce, ue, cs⟩ b f).2 :=
  ⟨rfl, by simp [Backup, backupTail, setenvEvents, chainEvents]⟩

/-- Claim C2, counterexample.  Dump exits with status 1 while the upload also
fails with "permission denied": `Backup` returns the process error without
the chain join point (`uploadWait.Wait()`) ever appearing in the trace, so it
does not wait for the compression-and-upload chain to finish when the dump
process exited with an error. -/
theorem c2_counterexample :
    (Backup ⟨none, none, some "exit status 1", false, "", none,
        some "permission denied", 0⟩ sampleBinding "backup.sql.gz").1
      = BackupResult.dumpError "postgres dump: exit status 1" ∧
    Event.waitChain ∉ (Backup ⟨none, none, some "exit status 1", false, "",
        none, some "permission denied", 0⟩ sampleBinding "backup.sql.gz").2 :=
  ⟨rfl, by decide⟩

/-- Claim C2, amended.  `Backup` waits for the compression-and-upload chain
only when the dump process exits successfully; when the process exits with an
error, `Backup` cancels the chain's context and returns the process's error
immediately, without waiting for the chain — in particular, when both the
process and the chain report errors, the process's error is the one
returned. -/
theorem c2_amended (b : Binding) (f st w : String) (ce ue : Option String)
    (dl : Bool) (cs : Nat) :
    Event.waitChain ∈ (Backup ⟨none, none, none, dl, st, ce, ue, cs⟩ b f).2 ∧
    Event.waitChain ∉ (Backup ⟨none, none, some w, dl, st, ce, ue, cs⟩ b f).2 ∧
    Event.cancelUpload
      ∈ (Backup ⟨none, none, some w, dl, st, ce, ue, cs⟩ b f).2 ∧
    (Backup ⟨none, none, some w, dl, st, ce, ue, cs⟩ b f).1
      = (if dl then
          BackupResult.timeoutError
            "postgres dump: timeout: context deadline exceeded"
        else BackupResult.dumpError ("postgres dump: " ++ w)) := by
  refine ⟨?_, ?_, ?_, ?_⟩ <;>
    cases dl <;> simp [Backup, backupTail, setenvEvents, chainEvents]

/-- Claim C3, counterexample.  Starting from a host environment with no
variables set, one `Backup` run leaves `PGUSER` set to the binding's username
in the host process's shared environment: the claim that the shared
environment state is left unchanged is false — the code calls `os.Setenv`,
which mutates the process-wide environment the child then inherits. -/
theorem c3_counterexample :
    hostEnvAfter (fun _ => none) ⟨none, none, none, false, "", none, none, 0⟩
        sampleBinding "backup.sql.gz" "PGUSER" = some "alice" ∧
    (fun _ => (none : Option String)) "PGUSER" = none :=
  ⟨by decide, rfl⟩

/-- Claim C3, amended.  Every `Backup` run sets the connection-parameter
variables PGUSER, PGPASSWORD, PGHOST and PGPORT in the host process's shared
environment (from which the child inherits them) and never restores them:
after the run the shared environment holds the run's credentials, whatever it
held before.  Only the engine mutex keeps sibling runs of the same engine
from racing on them. -/
theorem c3_amended (g : String → Option String) (env : RunEnv) (b : Binding)
    (f : String) :
    hostEnvAfter g env b f "PGUSER" = some (credentialString b "username").1 ∧
    hostEnvAfter g env b f "PGPASSWORD"
      = some (credentialString b "password").1 ∧
    hostEnvAfter g env b f "PGHOST" = some (credentialString b "host").1 ∧
    hostEnvAfter g env b f "PGPORT" = some (credentialString b "port").1 := by
  have hfold : hostEnvAfter g env b f
      = (Event.lock :: setenvEvents b).foldl applyEvent g := by
    show ((Event.lock :: setenvEvents b) ++ (backupTail env b f).2).foldl
        applyEvent g = _
    rw [List.foldl_append]
    exact foldl_applyEvent_of_no_setenv _ _
      (fun k v => setenv_not_mem_backupTail env b f k v)
  rw [hfold]
  refine ⟨?_, ?_, ?_, ?_⟩ <;> simp [setenvEvents, applyEvent]

/-- Claim C4: for every run in which the dump process exits with an error,
the returned error is classified `DeadlineExceeded` — carrying the underlying
timeout error "context deadline exceeded" — exactly when the caller's context
had exceeded its deadline at the post-exit check, regardless of the stderr
contents, and classified `DumpFailed` exactly otherwise: the two outcomes are
mutually exclusive and decided by the deadline check. -/
theorem c4_deadline_exceeded (b : Binding) (f w st : String)
    (ce ue : Option String) (cs : Nat) (dl : Bool) :
    ((Backup ⟨none, none, some w, dl, st, ce, ue, cs⟩ b f).1
        = BackupResult.timeoutError
            "postgres dump: timeout: context deadline exceeded"
      ↔ dl = true) ∧
    ((Backup ⟨none, none, some w, dl, st, ce, ue, cs⟩ b f).1
        = BackupResult.dumpError ("postgres dump: " ++ w)
      ↔ dl = false) := by
  cases dl <;> simp [Backup, backupTail]

/-- Claim C5: in every reachable interleaving of `n` concurrent `Backup`
calls sharing `pgMutex`, at most one call is inside its mutex-protected body
(the whole dump) at any instant; and on every path — pipe-creation failure,
invocation failure, dump failure, deadline expiry, success — the run's trace
starts with the lock acquisition and ends with the deferred mutex release. -/
theorem c5_engine_lock :
    (∀ (n : Nat) (s : LockState n), ReachableLock n s →
      ∀ i j : Fin n, s.phase i = Phase.active → s.phase j = Phase.active →
        i = j) ∧
    (∀ (env : RunEnv) (b : Binding) (f : String),
      (Backup env b f).2.head? = some Event.lock ∧
      (Backup env b f).2.getLast? = some Event.unlock) := by
  constructor
  · intro n s h i j hi hj
    exact lock_mutual_exclusion h hi hj
  · intro env b f
    obtain ⟨pe, se, we, dl, st, ce, ue, cs⟩ := env
    refine ⟨rfl, ?_⟩
    cases pe <;> cases se <;> cases we <;> cases dl <;> rfl

/-- Claim C5, witness: the mutual-exclusion theorem applied to the reachable
state of one call holding the mutex, and the trace property applied to a
successful concrete run. -/
theorem c5_engine_lock_witness :
    (0 : Fin 1) = 0 ∧
    (Backup ⟨none, none, none, false, "", none, none, 0⟩ sampleBinding
        "backup.sql.gz").2.head? = some Event.lock ∧
    (Backup ⟨none, none, none, false, "", none, none, 0⟩ sampleBinding
        "backup.sql.gz").2.getLast? = some Event.unlock :=
  ⟨c5_engine_lock.1 1
      ⟨some 0, Function.update (initLockState 1).phase 0 Phase.active⟩
      (ReachableLock.step ReachableLock.init
        (LockStep.acquire 0 (initLockState 1) rfl rfl))
      0 0 (by simp) (by simp),
    (c5_engine_lock.2 ⟨none, none, none, false, "", none, none, 0⟩
      sampleBinding "backup.sql.gz").1,
    (c5_engine_lock.2 ⟨none, none, none, false, "", none, none, 0⟩
      sampleBinding "backup.sql.gz").2⟩

/-- Claim C6: every successful run (process exited cleanly, upload returned
no error) returns success, the upload is called with exactly
`{namespace}/{instanceName}/{filename}`, and the source's path computation
coincides with the spec's "joined by the / separator" format. -/
theorem c6_object_path (b : Binding) (f st : String) (ce : Option String)
    (cs : Nat) (dl : Bool) :
    (Backup ⟨none, none, none, dl, st, ce, none, cs⟩ b f).1
      = BackupResult.chainResult none ∧
    Event.uploadCall (objectPath b f)
      ∈ (Backup ⟨none, none, none, dl, st, ce, none, cs⟩ b f).2 ∧
    objectPath b f = specObjectPath b.label b.name f := by
  refine ⟨rfl, ?_, rfl⟩
  simp [Backup, backupTail, setenvEvents, chainEvents]

/-- Claim C7, counterexample.  The whole-instance command (empty database
name) is exactly `pg_dumpall -c --no-password`: it contains neither a verbose
flag nor the create flag `-C`, and the single-database command contains no
verbose flag either, so the claim that both commands always request verbose
and clean-and-create output is false. -/
theorem c7_counterexample :
    dumpCommand "" = ["pg_dumpall", "-c", "--no-password"] ∧
    "-v" ∉ dumpCommand "orders" ∧
    "--verbose" ∉ dumpCommand "orders" ∧
    "-C" ∉ dumpCommand "" := by
  decide

/-- Claim C7, amended.  The dump command is
`pg_dump <database> -C -c --no-password` (create and clean output) when the
binding's database name is non-empty and `pg_dumpall -c --no-password`
(clean output only) otherwise; both commands request clean output (`-c`) and
disable interactive password prompting (`--no-password`); no verbose flag is
requested, and the create flag `-C` appears only on the single-database
command. -/
theorem c7_amended (db : String) :
    (db.length > 0 →
      dumpCommand db = ["pg_dump", db, "-C", "-c", "--no-password"]) ∧
    (db.length = 0 →
      dumpCommand db = ["pg_dumpall", "-c", "--no-password"]) ∧
    "-c" ∈ dumpCommand db ∧
    "--no-password" ∈ dumpCommand db := by
  refine ⟨fun h => ?_, fun h => ?_, ?_, ?_⟩
  · simp [dumpCommand, h]
  · simp [dumpCommand, h]
  · by_cases h : db.length > 0 <;> simp [dumpCommand, h]
  · by_cases h : db.length > 0 <;> simp [dumpCommand, h]

/-- Claim C7, witness: the amended characterization applied to the database
name "orders" and to the empty database name. -/
theorem c7_amended_witness :
    dumpCommand "orders" = ["pg_dump", "orders", "-C", "-c", "--no-password"] ∧
    dumpCommand "" = ["pg_dumpall", "-c", "--no-password"] :=
  ⟨(c7_amended "orders").1 (by decide), (c7_amended "").2.1 rfl⟩

/-- Claim C8: on every run that launches the chain, the gzip encoder is
initialized with exactly one header, whose embedded filename equals the
backup's logical filename and whose embedded timestamp equals the clock value
at the moment compression starts. -/
theorem c8_gzip_header (b : Binding) (f st : String) (we ce ue : Option String)
    (dl : Bool) (cs : Nat) :
    Event.gzipInit ⟨f, cs⟩
      ∈ (Backup ⟨none, none, we, dl, st, ce, ue, cs⟩ b f).2 ∧
    (∀ hdr : GzipHeader,
      Event.gzipInit hdr ∈ (Backup ⟨none, none, we, dl, st, ce, ue, cs⟩ b f).2 →
        hdr.name = f ∧ hdr.modTime = cs) := by
  constructor
  · cases we <;> cases dl <;> simp [Backup, backupTail, setenvEvents, chainEvents]
  · intro hdr hm
    have hh : hdr = ⟨f, cs⟩ := by
      cases we <;> cases dl <;>
        simp_all [Backup, backupTail, setenvEvents, chainEvents]
    subst hh
    exact ⟨rfl, rfl⟩

/-- Claim C8, witness: the header theorem applied to a concrete successful
run, using its own existence conjunct to discharge the membership
hypothesis. -/
theorem c8_gzip_header_witness :
    (⟨"backup.sql.gz", 7⟩ : GzipHeader).name = "backup.sql.gz" ∧
    (⟨"backup.sql.gz", 7⟩ : GzipHeader).modTime = 7 :=
  (c8_gzip_header sampleBinding "backup.sql.gz" "" none none none false 7).2
    ⟨"backup.sql.gz", 7⟩
    (c8_gzip_header sampleBinding "backup.sql.gz" "" none none none false 7).1

/-- Claim C9: the result of `Backup` is unchanged under any change to the
`io.Copy` outcome inside the chain (its error is assigned to blanks and
discarded), the discarded copy outcome is nonetheless produced whenever the
chain runs, and of the chain's two stages only an error returned by the
upload call is ever surfaced: a failing upload after a clean process exit is
returned as the run's result. -/
theorem c9_copy_error_discarded (b : Binding) (f st : String)
    (pe se we ue c1 c2 : Option String) (dl : Bool) (cs : Nat) :
    (Backup ⟨pe, se, we, dl, st, c1, ue, cs⟩ b f).1
      = (Backup ⟨pe, se, we, dl, st, c2, ue, cs⟩ b f).1 ∧
    Event.copyDone c1 ∈ (Backup ⟨none, none, we, dl, st, c1, ue, cs⟩ b f).2 ∧
    (∀ u : String,
      (Backup ⟨none, none, none, dl, st, c1, some u, cs⟩ b f).1
        = BackupResult.chainResult (some u)) := by
  refine ⟨?_, ?_, fun u => rfl⟩
  · cases pe <;> cases se <;> cases we <;> cases dl <;> rfl
  · cases we <;> cases dl <;> simp [Backup, backupTail, setenvEvents, chainEvents]

/-- Claim C10: the result of `Backup` does not depend on the binding (so no
absent credential can make the run fail); a lookup in a binding with no
credentials yields the empty string and a discarded failure flag; and a run
with an empty binding still starts the dump — a whole-instance dump, since
the database name defaulted to the empty string — with all connection
variables set to the empty string. -/
theorem c10_credentials_ignored (env : RunEnv) (b b2 : Binding) (f f2 : String)
    (l nm key st : String) (ce ue : Option String) (dl : Bool) (cs : Nat) :
    (Backup env b f).1 = (Backup env b2 f2).1 ∧
    credentialString ⟨l, nm, []⟩ key = ("", false) ∧
    Event.startProc (dumpCommand "")
      ∈ (Backup ⟨none, none, none, dl, st, ce, ue, cs⟩ ⟨l, nm, []⟩ f).2 ∧
    Event.setenv "PGUSER" ""
      ∈ (Backup ⟨none, none, none, dl, st, ce, ue, cs⟩ ⟨l, nm, []⟩ f).2 := by
  refine ⟨?_, rfl, ?_, ?_⟩
  · obtain ⟨pe, se, we, dl2, st2, c, u, cs2⟩ := env
    cases pe <;> cases se <;> cases we <;> cases dl2 <;> rfl
  · simp [Backup, backupTail, setenvEvents, chainEvents, credentialString]
  · simp [Backup, backupTail, setenvEvents, chainEvents, credentialString]

end Backman
